import Mathlib

/-!
Verification of the `spatia` geocoder (`src-python/spatia-geocoder/main.py`)
against its natural-language specification.

The program is a thin batch geocoder: `geocode_addresses` loops over a list
of address strings, calls the external `geopy` geocoder once per address,
and maps the three outcomes (exception raised / no location / location) onto
`GeocodeResult` records.  The CLI entry point `run` prints
`json.dumps([r.model_dump() for r in results])`, and the FastAPI endpoint
`POST /geocode` returns the same list serialized by FastAPI's default
response-model machinery.

Modelling choices:
* The external geocoder call `geocoder.geocode(address)` (including the
  possibility of a raised exception) is a parameter
  `lookup : String → LookupOutcome`; exceptions are the `raises` outcome
  carrying the exception type name and message, matching the program's
  `f"{type(exc).__name__}: {exc}"` formatting.
* Python floats (latitudes/longitudes) are modelled as `Rat`; the program
  never computes with them, it only passes them through.
* The process environment is modelled by explicit `Option String` parameters
  for `SPATIA_GEOCODER_DEBUG` and `SPATIA_GEOCODER_PORT` (`none` = unset).
* JSON values are the inductive `Json`; objects are ordered key/value lists,
  mirroring the insertion order of Python dicts produced by
  `pydantic.BaseModel.model_dump`.  Crucially, `model_dump()` (with its
  default arguments, as called on line 87 of `main.py`) and FastAPI's
  default response serialization both INCLUDE fields whose value is `None`,
  emitting them as JSON `null`; neither omits them.
-/

/-- Outcome of one call to the external geocoder `geocoder.geocode(address)`:
the call raises an exception (with the exception type's `__name__` and its
message), returns `None` (no location found), or returns a location with a
latitude and a longitude. -/
inductive LookupOutcome where
  | raises (excName excMessage : String)
  | notFound
  | found (latitude longitude : Rat)
deriving DecidableEq

/-- JSON values.  Objects keep their fields in insertion order, as Python
dicts do. -/
inductive Json where
  | null : Json
  | bool : Bool → Json
  | num : Rat → Json
  | str : String → Json
  | arr : List Json → Json
  | obj : List (String × Json) → Json

/-- The pydantic model `GeocodeResult` of `main.py` lines 19-24:
`address: str`, `lat: Optional[float]`, `lon: Optional[float]`,
`status: Optional[str] = None`, `error: Optional[str] = None`. -/
structure GeocodeResult where
  address : String
  lat : Option Rat
  lon : Option Rat
  status : Option String := none
  error : Option String := none
deriving DecidableEq

/-- The pydantic model `GeocodeRequest` of `main.py` lines 15-16:
`addresses: List[str]`. -/
structure GeocodeRequest where
  addresses : List String
deriving DecidableEq

/-- Python's `str.strip()` with no argument: remove whitespace characters
from both ends of the string. -/
def pyStrip (s : String) : String :=
  ⟨((s.data.dropWhile Char.isWhitespace).reverse.dropWhile
      Char.isWhitespace).reverse⟩

/-- Python's `str.lower()`: lowercase each character (the program only ever
compares the result against ASCII strings, so ASCII lowercasing is
faithful here). -/
def pyLower (s : String) : String :=
  ⟨s.data.map Char.toLower⟩

/-- `geocoder_debug_enabled` of `main.py` lines 72-74:
`os.environ.get("SPATIA_GEOCODER_DEBUG", "").strip().lower()` is tested for
membership in the set `{"1", "true", "yes", "on"}`.  `env` is the value of
the environment variable (`none` = unset). -/
def geocoder_debug_enabled (env : Option String) : Bool :=
  let value := pyLower (pyStrip (env.getD ""))
  (["1", "true", "yes", "on"] : List String).contains value

/-- The body of the `for address in addresses` loop of `geocode_addresses`
(`main.py` lines 36-68): one `try/except` around the lookup, then the
three-way classification into an appended `GeocodeResult`. -/
def resolve (lookup : String → LookupOutcome) (debug : Bool)
    (address : String) : GeocodeResult :=
  match lookup address with
  | .raises n m =>
      { address := address, lat := none, lon := none,
        status := if debug then some "error" else none,
        error := if debug then some (n ++ ": " ++ m) else none }
  | .notFound =>
      { address := address, lat := none, lon := none,
        status := if debug then some "not_found" else none,
        error := none }
  | .found la lo =>
      { address := address, lat := some la, lon := some lo,
        status := if debug then some "ok" else none,
        error := none }

/-- `geocode_addresses` of `main.py` lines 32-69: reads the debug flag once
(`debug = geocoder_debug_enabled()`), then sequentially processes each
address, appending one result per address.  `env` is the value of the
`SPATIA_GEOCODER_DEBUG` environment variable. -/
def geocode_addresses (lookup : String → LookupOutcome)
    (env : Option String) (addresses : List String) : List GeocodeResult :=
  let debug := geocoder_debug_enabled env
  addresses.map (resolve lookup debug)

/-- Serialize an `Option Rat` field the way pydantic dumps an
`Optional[float]`: `None` becomes JSON `null`. -/
def optNumJson : Option Rat → Json
  | none => Json.null
  | some q => Json.num q

/-- Serialize an `Option String` field the way pydantic dumps an
`Optional[str]`: `None` becomes JSON `null`. -/
def optStrJson : Option String → Json
  | none => Json.null
  | some s => Json.str s

/-- `GeocodeResult.model_dump()` with pydantic's default arguments, as
called in `run` (`main.py` line 87), and equally the per-item serialization
FastAPI applies to the `List[GeocodeResult]` response model with its default
settings (`response_model_exclude_none=False`): every declared field is
emitted, in declaration order, with `None` rendered as JSON `null`. -/
def model_dump (r : GeocodeResult) : List (String × Json) :=
  [("address", Json.str r.address),
   ("lat", optNumJson r.lat),
   ("lon", optNumJson r.lon),
   ("status", optStrJson r.status),
   ("error", optStrJson r.error)]

/-- First value bound to key `k` in a JSON object's field list, if any. -/
def getKey (fields : List (String × Json)) (k : String) : Option Json :=
  match fields.find? (fun p => p.1 == k) with
  | some p => some p.2
  | none => none

/-- Whether a JSON object's field list contains key `k` at all. -/
def hasKey (fields : List (String × Json)) (k : String) : Bool :=
  fields.any (fun p => p.1 == k)

/-- The JSON array printed by the CLI branch of `run` (`main.py` line 87):
`json.dumps([result.model_dump() for result in results])`. -/
def cli_output (lookup : String → LookupOutcome) (env : Option String)
    (addresses : List String) : Json :=
  Json.arr ((geocode_addresses lookup env addresses).map
    (fun r => Json.obj (model_dump r)))

/-- The endpoint handler `geocode` of `main.py` lines 27-29:
`return geocode_addresses(payload.addresses)`. -/
def geocode (lookup : String → LookupOutcome) (env : Option String)
    (payload : GeocodeRequest) : List GeocodeResult :=
  geocode_addresses lookup env payload.addresses

/-- The JSON body of the HTTP response to `POST /geocode`: FastAPI
serializes the returned `List[GeocodeResult]` with its default
response-model settings, so each item is dumped exactly like
`model_dump`. -/
def http_response (lookup : String → LookupOutcome) (env : Option String)
    (payload : GeocodeRequest) : Json :=
  Json.arr ((geocode lookup env payload).map
    (fun r => Json.obj (model_dump r)))

/-- Pydantic validation of a JSON value against `str`. -/
def Json.asString : Json → Option String
  | .str s => some s
  | _ => none

/-- Pydantic validation of the request body against `GeocodeRequest`
(`addresses: List[str]`): the body must be an object whose `addresses`
field is an array of strings; any other shape is rejected with a
client-error response. -/
def GeocodeRequest.validate (body : Json) : Option GeocodeRequest :=
  match body with
  | .obj fields =>
      match getKey fields "addresses" with
      | some (.arr items) => (items.mapM Json.asString).map GeocodeRequest.mk
      | _ => none
  | _ => none

/-- Python digit-run parsing for `int(...)` base 10, after the first digit:
further characters are digits, with single underscores allowed only between
two digits. -/
def pyDigits (acc : Nat) : List Char → Option Nat
  | [] => some acc
  | '_' :: c :: rest =>
      if c.isDigit then pyDigits (acc * 10 + (c.toNat - 48)) rest else none
  | ['_'] => none
  | c :: rest =>
      if c.isDigit then pyDigits (acc * 10 + (c.toNat - 48)) rest else none

/-- Python `int(...)` digit-run parsing: at least one digit, then
`pyDigits`. -/
def pyDigitsStart : List Char → Option Nat
  | [] => none
  | c :: rest => if c.isDigit then pyDigits (c.toNat - 48) rest else none

/-- Python's built-in `int(s)` on a string, base 10: surrounding whitespace
is stripped, an optional single `+`/`-` sign is allowed, then a non-empty
ASCII digit run (single underscores permitted between digits).  Any other
string raises `ValueError`, modelled as `none`. -/
def pyInt (s : String) : Option Int :=
  match (pyStrip s).data with
  | '+' :: rest => (pyDigitsStart rest).map Int.ofNat
  | '-' :: rest => (pyDigitsStart rest).map (fun n => -(Int.ofNat n))
  | rest => (pyDigitsStart rest).map Int.ofNat

/-- The parsed command line of `run` (`main.py` lines 78-81): zero or more
positional `addresses` and the boolean `--serve` flag. -/
structure Args where
  addresses : List String
  serve : Bool

/-- What one invocation of `run` does, observably:
* `usageError c msg`: `parser.error(msg)` printed the usage message and
  exited with status `c` (argparse always uses exit status 2);
* `printJson out`: the JSON array `out` was printed to stdout and the
  process exited with status 0;
* `serve host port`: `uvicorn.run(app, host=host, port=port, ...)` was
  reached, i.e. the HTTP server was started;
* `raisesValueError literal`: the unguarded `int(...)` conversion on
  `literal` raised `ValueError` and the process terminated before the
  server started. -/
inductive RunOutcome where
  | usageError (exitCode : Nat) (message : String)
  | printJson (out : Json)
  | serve (host : String) (port : Int)
  | raisesValueError (literal : String)

/-- `run` of `main.py` lines 77-91, as a function of the lookup behaviour,
the two environment variables (`debugEnv` = `SPATIA_GEOCODER_DEBUG`,
`portEnv` = `SPATIA_GEOCODER_PORT`, `none` = unset) and the parsed
arguments. -/
def run (lookup : String → LookupOutcome) (debugEnv portEnv : Option String)
    (args : Args) : RunOutcome :=
  if args.serve = false then
    if args.addresses = [] then
      .usageError 2 "Provide at least one address, or use --serve"
    else
      .printJson (cli_output lookup debugEnv args.addresses)
  else
    match pyInt (portEnv.getD "7788") with
    | some p => .serve "127.0.0.1" p
    | none => .raisesValueError (portEnv.getD "7788")

/-- Modelled from the spec: the condition of §6 under which
`SPATIA_GEOCODER_DEBUG` enables debug mode, stated in the spec's own words
("its value (case-insensitive, trimmed) is one of `1`, `true`, `yes`, `on`;
any other value (including unset) disables them"), for comparison with the
source's `geocoder_debug_enabled`. -/
def debug_enabled_spec (env : Option String) : Prop :=
  ∃ v, env = some v ∧
    pyLower (pyStrip v) ∈ (["1", "true", "yes", "on"] : List String)

/-! ## Helper lemmas -/

/-- Every branch of the loop body copies the input address verbatim into the
result's `address` field. -/
theorem resolve_address (lookup : String → LookupOutcome) (debug : Bool)
    (address : String) : (resolve lookup debug address).address = address := by
  unfold resolve
  cases lookup address <;> rfl

/-- The `i`-th result of a batch is the loop body applied to the `i`-th
address. -/
theorem geocode_addresses_getElem (lookup : String → LookupOutcome)
    (env : Option String) (addresses : List String) (i : Nat)
    (h : i < addresses.length) :
    (geocode_addresses lookup env addresses)[i]? =
      some (resolve lookup (geocoder_debug_enabled env)
        (addresses.get ⟨i, h⟩)) := by
  simp [geocode_addresses, List.getElem?_map, List.getElem?_eq_getElem h]

/-- Every member of a batch's output is the loop body applied to some input
address. -/
theorem mem_geocode_addresses {lookup : String → LookupOutcome}
    {env : Option String} {addresses : List String} {r : GeocodeResult}
    (h : r ∈ geocode_addresses lookup env addresses) :
    ∃ a ∈ addresses, r = resolve lookup (geocoder_debug_enabled env) a := by
  simp only [geocode_addresses, List.mem_map] at h
  obtain ⟨a, ha, rfl⟩ := h
  exact ⟨a, ha, rfl⟩

/-- `model_dump` always emits the `status` field (as `null` when `None`). -/
theorem getKey_model_dump_status (r : GeocodeResult) :
    getKey (model_dump r) "status" = some (optStrJson r.status) := rfl

/-- `model_dump` always emits the `error` field (as `null` when `None`). -/
theorem getKey_model_dump_error (r : GeocodeResult) :
    getKey (model_dump r) "error" = some (optStrJson r.error) := rfl

/-- `model_dump` always emits the `lat` field (as `null` when `None`). -/
theorem getKey_model_dump_lat (r : GeocodeResult) :
    getKey (model_dump r) "lat" = some (optNumJson r.lat) := rfl

/-- `model_dump` always emits the `lon` field (as `null` when `None`). -/
theorem getKey_model_dump_lon (r : GeocodeResult) :
    getKey (model_dump r) "lon" = some (optNumJson r.lon) := rfl

/-- A stub lookup used to exercise the theorems on concrete inputs: raises
on "A", succeeds with coordinates (1, 2) on "B", finds nothing otherwise. -/
def stubLookup : String → LookupOutcome := fun a =>
  if a = "A" then .raises "GeocoderServiceError" "boom"
  else if a = "B" then .found 1 2
  else .notFound

/-! ## Claims -/

/-- C1, counterexample.  The claim says that with debug mode disabled the
`status` and `error` keys are omitted from every emitted result object.  In
fact `model_dump()` (default arguments) and FastAPI's default response
serialization emit every field, so with `SPATIA_GEOCODER_DEBUG` unset and
one unresolved address the CLI-printed array contains an object with
`status` and `error` keys bound to `null`. -/
theorem C1_counterexample :
    geocoder_debug_enabled none = false ∧
    cli_output (fun _ => .notFound) none ["X"] =
      Json.arr [Json.obj [("address", Json.str "X"), ("lat", Json.null),
        ("lon", Json.null), ("status", Json.null), ("error", Json.null)]] ∧
    hasKey (model_dump (resolve (fun _ => .notFound) false "X")) "status"
      = true ∧
    hasKey (model_dump (resolve (fun _ => .notFound) false "X")) "error"
      = true :=
  ⟨by decide, rfl, by decide, by decide⟩

/-- C1 (amended).  For every batch and every result object emitted as JSON
(by the CLI's printed array and by the HTTP response — the two emissions
coincide), when debug mode is disabled the `status` and `error` keys are
present with value `null` (they are not omitted), and `lat`/`lon` are
always present, with value `null` exactly when the address is
unresolved. -/
theorem C1_emitted_fields (lookup : String → LookupOutcome)
    (env : Option String) (addresses : List String)
    (h : geocoder_debug_enabled env = false) :
    cli_output lookup env addresses =
      http_response lookup env { addresses := addresses } ∧
    ∀ r ∈ geocode_addresses lookup env addresses,
      getKey (model_dump r) "status" = some Json.null ∧
      getKey (model_dump r) "error" = some Json.null ∧
      (∃ v, getKey (model_dump r) "lat" = some v ∧
        (v = Json.null ↔ r.lat = none)) ∧
      (∃ v, getKey (model_dump r) "lon" = some v ∧
        (v = Json.null ↔ r.lon = none)) := by
  refine ⟨rfl, ?_⟩
  intro r hr
  obtain ⟨a, -, rfl⟩ := mem_geocode_addresses hr
  rw [getKey_model_dump_status, getKey_model_dump_error]
  cases hx : lookup a <;>
    simp [resolve, hx, h, getKey_model_dump_lat, getKey_model_dump_lon,
      optStrJson, optNumJson]

/-- C1, witness for the amended theorem at a concrete input:
`SPATIA_GEOCODER_DEBUG` unset, one address that resolves. -/
theorem C1_emitted_fields_witness :
    geocoder_debug_enabled none = false ∧
    getKey (model_dump (resolve stubLookup false "B")) "status"
      = some Json.null :=
  ⟨by decide,
   ((C1_emitted_fields stubLookup none ["B"] (by decide)).2
     (resolve stubLookup false "B") (by decide)).1⟩

/-- C2.  For every address in a batch (at every index `i`), with the debug
flag computed once from the environment, the resolver outcome is mapped as:
a raised exception gives `lat = lon = none` with `status = "error"` and
`error = "<type>: <message>"` exactly when debug is on; no location gives
`lat = lon = none` with `status = "not_found"` exactly when debug is on and
`error` unset; a location gives its latitude/longitude with
`status = "ok"` exactly when debug is on and `error` unset. -/
theorem C2_outcome_mapping (lookup : String → LookupOutcome)
    (env : Option String) (addresses : List String) (i : Nat)
    (h : i < addresses.length) :
    ∃ r, (geocode_addresses lookup env addresses)[i]? = some r ∧
      r.address = addresses.get ⟨i, h⟩ ∧
      (∀ n m, lookup r.address = .raises n m →
        r.lat = none ∧ r.lon = none ∧
        r.status = (if geocoder_debug_enabled env then some "error"
          else none) ∧
        r.error = (if geocoder_debug_enabled env then some (n ++ ": " ++ m)
          else none)) ∧
      (lookup r.address = .notFound →
        r.lat = none ∧ r.lon = none ∧
        r.status = (if geocoder_debug_enabled env then some "not_found"
          else none) ∧
        r.error = none) ∧
      (∀ la lo, lookup r.address = .found la lo →
        r.lat = some la ∧ r.lon = some lo ∧
        r.status = (if geocoder_debug_enabled env then some "ok"
          else none) ∧
        r.error = none) := by
  have key := geocode_addresses_getElem lookup env addresses i h
  generalize hA : addresses.get ⟨i, h⟩ = a at key ⊢
  refine ⟨resolve lookup (geocoder_debug_enabled env) a, key,
    resolve_address .., ?_, ?_, ?_⟩ <;>
    rw [resolve_address] <;>
    cases hx : lookup a <;>
    simp [resolve, hx]

/-- C2, witness at a concrete input: one address whose lookup raises, debug
enabled via `SPATIA_GEOCODER_DEBUG=1`. -/
theorem C2_outcome_mapping_witness :
    (0 < (["A"] : List String).length) ∧
    (geocode_addresses stubLookup (some "1") ["A"])[0]? =
      some { address := "A", lat := none, lon := none,
             status := some "error",
             error := some "GeocoderServiceError: boom" } := by
  refine ⟨by decide, ?_⟩
  obtain ⟨r, hr, haddr, hraises, -, -⟩ :=
    C2_outcome_mapping stubLookup (some "1") ["A"] 0 (by decide)
  have h1 : stubLookup r.address =
      .raises "GeocoderServiceError" "boom" := by
    rw [haddr]; decide
  obtain ⟨hlat, hlon, hstatus, herror⟩ := hraises _ _ h1
  rw [hr]
  have haddr2 : r.address = "A" := haddr
  have hst : r.status = some "error" := by
    rw [hstatus]; decide
  have her : r.error = some "GeocoderServiceError: boom" := by
    rw [herror]; decide
  cases r
  simp_all

/-- C3.  For every non-empty input sequence of address strings,
`geocode_addresses` returns a sequence of `GeocodeResult` of identical
length, and the `i`-th result's `address` field equals the `i`-th input
string verbatim (order preserved, duplicates permitted). -/
theorem C3_length_and_order (lookup : String → LookupOutcome)
    (env : Option String) (addresses : List String)
    (h : addresses ≠ []) :
    (geocode_addresses lookup env addresses).length = addresses.length ∧
    ∀ i (hi : i < addresses.length),
      ∃ r, (geocode_addresses lookup env addresses)[i]? = some r ∧
        r.address = addresses.get ⟨i, hi⟩ := by
  refine ⟨by simp [geocode_addresses], ?_⟩
  intro i hi
  exact ⟨resolve lookup (geocoder_debug_enabled env) (addresses.get ⟨i, hi⟩),
    geocode_addresses_getElem lookup env addresses i hi,
    resolve_address ..⟩

/-- C3, witness at a concrete input: a two-address batch, including a
duplicate-free order check on the first entry. -/
theorem C3_length_and_order_witness :
    ((["B", "C"] : List String) ≠ []) ∧
    (geocode_addresses stubLookup none ["B", "C"]).length = 2 ∧
    (geocode_addresses stubLookup none ["B", "C"])[0]? =
      some { address := "B", lat := some 1, lon := some 2,
             status := none, error := none } := by
  have h := C3_length_and_order stubLookup none ["B", "C"] (by decide)
  refine ⟨by decide, h.1, ?_⟩
  obtain ⟨r, hr, haddr⟩ := h.2 0 (by decide)
  rw [hr]
  have hmem : r ∈ geocode_addresses stubLookup none ["B", "C"] := by
    have := List.getElem?_mem hr
    exact this
  revert haddr
  have : geocode_addresses stubLookup none ["B", "C"] =
      [{ address := "B", lat := some 1, lon := some 2,
         status := none, error := none },
       { address := "C", lat := none, lon := none,
         status := none, error := none }] := by decide
  rw [this] at hr
  simp at hr
  intro
  rw [hr]

/-- C4.  A lookup failure (raised exception) on any single address never
aborts the batch: every address still yields a result record, and in
particular for input `["A", "B"]` where the lookup raises on "A" and
succeeds on "B" with coordinates `(la, lo)`, the output has exactly two
entries, the first with `lat = lon = none` and the second with
`lat = some la`, `lon = some lo`. -/
theorem C4_failure_isolation (lookup : String → LookupOutcome)
    (env : Option String) (n m : String) (la lo : Rat)
    (h1 : lookup "A" = .raises n m) (h2 : lookup "B" = .found la lo) :
    (∀ addresses,
      (geocode_addresses lookup env addresses).length = addresses.length) ∧
    ∃ r1 r2, geocode_addresses lookup env ["A", "B"] = [r1, r2] ∧
      r1.address = "A" ∧ r1.lat = none ∧ r1.lon = none ∧
      r2.address = "B" ∧ r2.lat = some la ∧ r2.lon = some lo := by
  refine ⟨fun addresses => by simp [geocode_addresses], ?_⟩
  refine ⟨resolve lookup (geocoder_debug_enabled env) "A",
    resolve lookup (geocoder_debug_enabled env) "B",
    by simp [geocode_addresses], ?_, ?_, ?_, ?_, ?_, ?_⟩ <;>
    simp [resolve, h1, h2]

/-- C4, witness at a concrete input: the stub lookup raises on "A" and
returns coordinates (1, 2) on "B". -/
theorem C4_failure_isolation_witness :
    stubLookup "A" = .raises "GeocoderServiceError" "boom" ∧
    stubLookup "B" = .found 1 2 ∧
    (geocode_addresses stubLookup none ["A", "B"]).length = 2 :=
  ⟨by decide, by decide,
   (C4_failure_isolation stubLookup none "GeocoderServiceError" "boom" 1 2
     (by decide) (by decide)).1 ["A", "B"]⟩

/-- C5.  In every result produced by any invocation (any debug setting, any
lookup outcome), `lat` and `lon` are either both set or both unset — never
one without the other. -/
theorem C5_lat_lon_both_or_neither (lookup : String → LookupOutcome)
    (env : Option String) (addresses : List String) (r : GeocodeResult)
    (h : r ∈ geocode_addresses lookup env addresses) :
    (r.lat ≠ none ∧ r.lon ≠ none) ∨ (r.lat = none ∧ r.lon = none) := by
  obtain ⟨a, -, rfl⟩ := mem_geocode_addresses h
  cases hx : lookup a <;> simp [resolve, hx]

/-- C5, witness at a concrete input: the successful result for "B" is a
member of the batch output and has both coordinates set. -/
theorem C5_lat_lon_both_or_neither_witness :
    ({ address := "B", lat := some 1, lon := some 2, status := none,
       error := none } : GeocodeResult)
      ∈ geocode_addresses stubLookup none ["B"] ∧
    ((({ address := "B", lat := some 1, lon := some 2, status := none,
         error := none } : GeocodeResult).lat ≠ none ∧
      ({ address := "B", lat := some 1, lon := some 2, status := none,
         error := none } : GeocodeResult).lon ≠ none) ∨
     (({ address := "B", lat := some 1, lon := some 2, status := none,
         error := none } : GeocodeResult).lat = none ∧
      ({ address := "B", lat := some 1, lon := some 2, status := none,
         error := none } : GeocodeResult).lon = none)) :=
  ⟨by decide,
   C5_lat_lon_both_or_neither stubLookup none ["B"] _ (by decide)⟩

/-- C6, counterexample.  The claim says that with debug disabled no emitted
result object contains a `status` or `error` key.  In fact, with
`SPATIA_GEOCODER_DEBUG=0` (debug disabled) and a successful lookup, the
HTTP response's result object contains both keys, bound to `null`. -/
theorem C6_counterexample :
    geocoder_debug_enabled (some "0") = false ∧
    http_response (fun _ => .found 3 4) (some "0") { addresses := ["Y"] } =
      Json.arr [Json.obj [("address", Json.str "Y"), ("lat", Json.num 3),
        ("lon", Json.num 4), ("status", Json.null), ("error", Json.null)]] ∧
    hasKey (model_dump (resolve (fun _ => .found 3 4) false "Y")) "status"
      = true ∧
    hasKey (model_dump (resolve (fun _ => .found 3 4) false "Y")) "error"
      = true :=
  ⟨by decide, rfl, by decide, by decide⟩

/-- C6 (amended).  For every batch and every result: with debug disabled,
the emitted object's `status` and `error` keys are present with value
`null`; with debug enabled, the emitted `status` is a string among
"ok" / "not_found" / "error", and the emitted `error` is a string (rather
than `null`) if and only if `status` equals "error". -/
theorem C6_status_error_fields (lookup : String → LookupOutcome)
    (env : Option String) (addresses : List String) (r : GeocodeResult)
    (h : r ∈ geocode_addresses lookup env addresses) :
    (geocoder_debug_enabled env = false →
      getKey (model_dump r) "status" = some Json.null ∧
      getKey (model_dump r) "error" = some Json.null) ∧
    (geocoder_debug_enabled env = true →
      ∃ s, getKey (model_dump r) "status" = some (Json.str s) ∧
        (s = "ok" ∨ s = "not_found" ∨ s = "error") ∧
        ((∃ e, getKey (model_dump r) "error" = some (Json.str e)) ↔
          s = "error")) := by
  obtain ⟨a, -, rfl⟩ := mem_geocode_addresses h
  rw [getKey_model_dump_status, getKey_model_dump_error]
  constructor <;> intro hd <;>
    cases hx : lookup a <;>
    simp [resolve, hx, hd, optStrJson]

/-- C6, witness for the amended theorem: debug enabled via
`SPATIA_GEOCODER_DEBUG=yes`, one address whose lookup raises; the emitted
`status` is the string "error". -/
theorem C6_status_error_fields_witness :
    ({ address := "A", lat := none, lon := none, status := some "error",
       error := some "GeocoderServiceError: boom" } : GeocodeResult)
      ∈ geocode_addresses stubLookup (some "yes") ["A"] ∧
    getKey (model_dump
      ({ address := "A", lat := none, lon := none, status := some "error",
         error := some "GeocoderServiceError: boom" } : GeocodeResult))
      "status" = some (Json.str "error") := by
  refine ⟨by decide, ?_⟩
  obtain ⟨s, hs, -, hiff⟩ :=
    (C6_status_error_fields stubLookup (some "yes") ["A"]
      { address := "A", lat := none, lon := none, status := some "error",
        error := some "GeocoderServiceError: boom" } (by decide)).2
      (by decide)
  have hse : s = "error" :=
    hiff.mp ⟨"GeocoderServiceError: boom", rfl⟩
  rw [hs, hse]

/-- C7.  `geocoder_debug_enabled` returns `true` if and only if the
`SPATIA_GEOCODER_DEBUG` environment variable, after trimming whitespace and
lowercasing, is one of "1", "true", "yes", "on"; for every other value,
including the variable being unset, it returns `false`.  The right-hand
side `debug_enabled_spec` is stated from the spec's words. -/
theorem C7_debug_flag_semantics (env : Option String) :
    (geocoder_debug_enabled env = true ↔ debug_enabled_spec env) ∧
    geocoder_debug_enabled none = false := by
  refine ⟨?_, by decide⟩
  cases env with
  | none =>
      simp only [geocoder_debug_enabled, debug_enabled_spec]
      simp [List.elem_iff]
      decide
  | some v =>
      simp only [geocoder_debug_enabled, debug_enabled_spec]
      simp only [Option.getD_some]
      constructor
      · intro hv
        exact ⟨v, rfl, by simpa [List.elem_iff] using hv⟩
      · rintro ⟨w, hw, hmem⟩
        obtain rfl : v = w := by injection hw
        simpa [List.elem_iff] using hmem

/-- C8.  When the CLI is invoked with zero positional addresses and without
`--serve`, it fails with a usage error (`argparse`'s `parser.error`: exit
status 2, which is non-zero) carrying the message "Provide at least one
address, or use --serve", and no JSON array is printed to stdout. -/
theorem C8_usage_error_on_empty_cli (lookup : String → LookupOutcome)
    (debugEnv portEnv : Option String) :
    run lookup debugEnv portEnv { addresses := [], serve := false } =
      .usageError 2 "Provide at least one address, or use --serve" ∧
    (∀ out, run lookup debugEnv portEnv { addresses := [], serve := false }
      ≠ .printJson out) ∧
    (2 : Nat) ≠ 0 := by
  refine ⟨rfl, ?_, by decide⟩
  intro out hcontra
  simp [run] at hcontra

/-- C9.  `geocode_addresses` applied to the empty list returns the empty
list, independently of the lookup (the geocoder is never contacted); an
HTTP `POST /geocode` with body `{"addresses": []}` passes schema validation
and yields the response `[]`. -/
theorem C9_empty_batch (lookup lookup2 : String → LookupOutcome)
    (env env2 : Option String) :
    geocode_addresses lookup env [] = [] ∧
    geocode_addresses lookup env [] = geocode_addresses lookup2 env2 [] ∧
    GeocodeRequest.validate (Json.obj [("addresses", Json.arr [])]) =
      some { addresses := [] } ∧
    http_response lookup env { addresses := [] } = Json.arr [] :=
  ⟨rfl, rfl, rfl, rfl⟩

/-- C10.  With `--serve` and `SPATIA_GEOCODER_PORT` set to a string that
does not parse as an integer, `run` raises an unhandled `ValueError` from
the unguarded `int(...)` conversion and terminates before the server
starts; there is no fallback to the default port 7788 — the default applies
only when the variable is unset. -/
theorem C10_port_parse_failure (lookup : String → LookupOutcome)
    (debugEnv : Option String) (s : String) (args : Args)
    (hserve : args.serve = true) (hbad : pyInt s = none) :
    run lookup debugEnv (some s) args = .raisesValueError s ∧
    (∀ host p, run lookup debugEnv (some s) args ≠ .serve host p) ∧
    run lookup debugEnv none args = .serve "127.0.0.1" 7788 := by
  have h7788 : pyInt "7788" = some 7788 := by decide
  refine ⟨?_, ?_, ?_⟩ <;> simp [run, hserve, hbad, h7788]

/-- C10, witness at a concrete input: `SPATIA_GEOCODER_PORT=abc` with
`--serve`. -/
theorem C10_port_parse_failure_witness :
    (Args.mk [] true).serve = true ∧ pyInt "abc" = none ∧
    run stubLookup none (some "abc") (Args.mk [] true) =
      .raisesValueError "abc" :=
  ⟨rfl, by decide,
   (C10_port_parse_failure stubLookup none "abc" (Args.mk [] true) rfl
     (by decide)).1⟩
